import Mathlib

/-!
Verification of the `equilibrium` driver (`src/main.cpp`).

The repository's `src/` holds only `main.cpp`; the headers `problem.hpp`,
`solver.hpp` and `kernels.hpp` are declared and consumed there but their
bodies are not available.  Everything in this file that mirrors `main.cpp`
is translated directly from that source; the handful of definitions whose
code lives in the missing headers are marked `Modelled from the spec:` and
follow the specification's words.
-/

/-- Modelled from the spec: `problem.hpp` is not under `src/`.  `Problem`'s
method is a C++ enumeration with enumerators `nonlinear_neuman`,
`linear_neuman`, `nystrom` (the `-m` option of the help text).  A C++
enumeration carries values of its underlying integer type, so we model the
method as an `Int` together with three distinct named constants. -/
def Problem.nonlinear_neuman : Int := 0

/-- Modelled from the spec: the `lneuman` enumerator of `Problem`'s method
enumeration. -/
def Problem.linear_neuman : Int := 1

/-- Modelled from the spec: the `nystrom` enumerator of `Problem`'s method
enumeration. -/
def Problem.nystrom : Int := 2

/-- Modelled from the spec: `Problem::init` reports one of `success`,
`help-requested`, `parse-error` (spec §6), again a C++ enumeration modelled
as distinct `Int` constants. -/
def Problem.success : Int := 0

/-- Modelled from the spec: the `help-requested` status of `Problem::init`. -/
def Problem.help : Int := 1

/-- Modelled from the spec: the `parse-error` status of `Problem::init`. -/
def Problem.parse_error : Int := 2

/-- Modelled from the spec: `kernels.hpp` is not under `src/`.  Spec §3 lists
the kernel variants Normal, Kurtic, GeneralKurtic, Exponential (Danchencko),
Roughgarden, ExponentialPolynomial and Constant, each immutable once
constructed from its shape parameters (modelled as rationals standing for
the C++ doubles). -/
inductive Kernels where
  | normal (sm sw : ℚ)
  | kurtic (s0 s1 : ℚ)
  | generalKurtic (s0m s1m s0w s1w : ℚ)
  | exponent (a b : ℚ)
  | roughgarden (sm gm sw gw : ℚ)
  | exponentPolynomial (am bm aw bw : ℚ)
  | constant (rb rw : ℚ)
deriving DecidableEq

/-- Modelled from the spec: the immutable `Problem` snapshot of `problem.hpp`
(spec §3 and §6), exposing exactly the accessors `main.cpp` and `showArgs`
read: dimensionality, method, closure weights alpha/beta/gamma, rates
b/s/d, radius `R`, derived grid `step` and `origin`, node count, iteration
count, accuracy (decimal digits), kernel instance and optional output path
(`path() == NULL`, i.e. `none`, is the "do not write" sentinel). -/
structure Problem where
  dimension : Int
  method : Int
  alpha : ℚ
  beta : ℚ
  gamma : ℚ
  b : ℚ
  s : ℚ
  d : ℚ
  R : ℚ
  step : ℚ
  origin : ℚ
  nodes : Nat
  iters : Nat
  accurancy : Nat
  kernels : Kernels
  path : Option String
deriving DecidableEq

/-- The four concrete solver classes constructed by `main` (`main.cpp`
lines 178-189): `LinearSolver`, `NystromSolver`, `SolverFFT`,
`SolverDHTNaive`. -/
inductive SolverKind where
  | LinearSolver
  | NystromSolver
  | SolverFFT
  | SolverDHTNaive
deriving DecidableEq

/-- The solver-selection code of `main` (`main.cpp` lines 178-189),
translated clause for clause:
`if(dim == 1 || dim == 3) { if(method == linear_neuman) ... else
if(method == nystrom) ... else SolverFFT } else SolverDHTNaive`. -/
def chooseSolver (p : Problem) : SolverKind :=
  if p.dimension = 1 ∨ p.dimension = 3 then
    if p.method = Problem.linear_neuman then SolverKind.LinearSolver
    else if p.method = Problem.nystrom then SolverKind.NystromSolver
    else SolverKind.SolverFFT
  else SolverKind.SolverDHTNaive

/-- Modelled from the spec: the closure weights actually entering each
concrete solver's equation.  Spec §4.2 and the help text of `main.cpp`
(lines 37-45): a method marked LINEAR (`lneuman`, `nystrom`) ignores the
stored A, B and G and uses the asymmetric closure A = 1, B = G = 0; every
other solver uses the `Problem`'s stored weights. -/
def solverWeights (k : SolverKind) (p : Problem) : ℚ × ℚ × ℚ :=
  match k with
  | SolverKind.LinearSolver => (1, 0, 0)
  | SolverKind.NystromSolver => (1, 0, 0)
  | SolverKind.SolverFFT => (p.alpha, p.beta, p.gamma)
  | SolverKind.SolverDHTNaive => (p.alpha, p.beta, p.gamma)

/-- The second-order closure of the third moment, as printed in the help
text of `main.cpp` (lines 13-15) and in spec §4.3:
`T(x, y) = 1/(A+B) (A C(x)C(y)/N + B C(x)C(y-x)/N + G C(y)C(y-x)/N - B N^3)`.
Arguments `Cx`, `Cy`, `Cyx` stand for `C(x)`, `C(y)`, `C(y-x)`. -/
def closureT (α β γ N Cx Cy Cyx : ℚ) : ℚ :=
  (α * (Cx * Cy / N) + β * (Cx * Cyx / N) + γ * (Cy * Cyx / N) - β * N ^ 3)
    / (α + β)

/-- Modelled from the spec: the closure term a given concrete solver plugs
into its discretized equation — `closureT` at the weights of
`solverWeights` (spec §4.3: "every solver must realize a discretization of
this same integral equation"). -/
def solverClosure (k : SolverKind) (p : Problem) (N Cx Cy Cyx : ℚ) : ℚ :=
  closureT (solverWeights k p).1 (solverWeights k p).2.1
    (solverWeights k p).2.2 N Cx Cy Cyx

/-- Modelled from the spec: the `Result` data carrier of `solver.hpp`
(spec §3): the discretized second-moment sequence `C` and the scalar first
moment `N`. -/
structure Result where
  C : List ℚ
  N : ℚ
deriving DecidableEq

/-- Modelled from the spec: `Result`'s derived `C(0)` accessor (spec §3:
"C(0) is a derived accessor, not stored separately, and must equal C[0] or
an extrapolated boundary value"); modelled as the head of `C`. -/
def Result.getC0 (r : Result) : ℚ := r.C.headD 0

/-- Modelled from the spec: the maximum relative change across all grid
points between successive iterates (spec §4.4's convergence measure). -/
def maxRelChange (C C' : List ℚ) : ℚ :=
  (List.zipWith (fun a b => |b - a| / |a|) C C').foldl max 0

/-- Modelled from the spec: one application `F` of the discretized integral
operator (spec §4.4: "numerical quadrature of the kernel-weighted closure
term plus linear birth/death terms").  The solver bodies are not under
`src/`; the kernel-weighted quadrature is modelled as a single unit-weight
evaluation of the solver's closure term at each node's current value,
balanced against the birth and death rates — this preserves what the
claims depend on: which closure weights enter the step, determinism, and
the single-`Result` contract. -/
def stepF (k : SolverKind) (p : Problem) (N : ℚ) (C : List ℚ) : List ℚ :=
  C.map (fun c => (p.b + solverClosure k p N c c c) / (p.b + p.s + p.d))

/-- Modelled from the spec: the fixed-point loop of spec §4.4 — iterate
`F` until the maximum relative change drops below the tolerance or the
iteration ceiling is reached, returning the best available estimate in
either case (non-convergence is not an error). -/
def solveIter (F : List ℚ → List ℚ) (tol : ℚ) : Nat → List ℚ → List ℚ
  | 0, C => C
  | Nat.succ n, C =>
    let C' := F C
    if maxRelChange C C' < tol then C' else solveIter F tol n C'

/-- Modelled from the spec: the uniform `solve(Problem) -> Result` entry
point of the solver hierarchy (spec §4.2 and §4.4-§4.7).  The first moment
is the mean-field balance `b/(s+d)` (spec §8), the seed is a uniform
density, the Nystrom solver performs one direct solve while the other
three iterate up to the ceiling with tolerance `10^-accuracy`. -/
def solve (k : SolverKind) (p : Problem) : Result :=
  let N := p.b / (p.s + p.d)
  let C0 := List.replicate p.nodes (N * N)
  match k with
  | SolverKind.NystromSolver => { C := stepF k p N C0, N := N }
  | _ =>
    { C := solveIter (stepF k p N) ((1 : ℚ) / 10 ^ p.accurancy) p.iters C0
      N := N }

/-- The observable actions of `main` (`main.cpp` lines 159-214), in
program order: printing the reference message, printing the "run with -h"
guidance, running a solver's `solve`, the two moment printouts (value and
`printf` precision), and the `VectorHandler::storeVector` call with its
six arguments. -/
inductive Event where
  | printReference
  | printHintRunWithH
  | solveRun (k : SolverKind)
  | printMomentN (value : ℚ) (precision : Nat)
  | printC0 (value : ℚ) (precision : Nat)
  | storeVector (C : List ℚ) (path : String) (nodes : Nat) (step : ℚ)
      (origin : ℚ) (precision : Nat)
deriving DecidableEq

/-- Whether an event is one of the two moment printouts. -/
def Event.isMomentPrint : Event → Bool
  | Event.printMomentN _ _ => true
  | Event.printC0 _ _ => true
  | _ => false

/-- Whether an event is a solver run. -/
def Event.isSolveRun : Event → Bool
  | Event.solveRun _ => true
  | _ => false

/-- Whether an event is a `VectorHandler::storeVector` call. -/
def Event.isStore : Event → Bool
  | Event.storeVector _ _ _ _ _ _ => true
  | _ => false

/-- The `main` function of `main.cpp` (lines 159-214) in its default build
(neither `DEBUG` nor `ASCETIC` defined), as a function of the status
returned by `Problem::init` and the initialized `Problem`, yielding the
event trace and the process exit status:
if the status is not `success`, either the reference message (status
`help`, exit 0) or the `-h` guidance (any other status, exit 1) is printed
and nothing else happens; otherwise the selected solver runs once, `N` and
`C(0)` are printed with `%.*lf` precision `accurancy`, and `storeVector`
runs exactly when a path is configured. -/
def runMain (st : Int) (p : Problem) : List Event × Int :=
  if st ≠ Problem.success then
    if st = Problem.help then ([Event.printReference], 0)
    else ([Event.printHintRunWithH], 1)
  else
    let k := chooseSolver p
    let answer := solve k p
    ([Event.solveRun k,
      Event.printMomentN answer.N p.accurancy,
      Event.printC0 answer.getC0 p.accurancy] ++
      (match p.path with
       | some pa =>
         [Event.storeVector answer.C pa p.nodes p.step p.origin p.accurancy]
       | none => []),
     0)

/-- A sample successfully initialized problem used by witness theorems. -/
def sampleProblem : Problem :=
  { dimension := 1
    method := Problem.linear_neuman
    alpha := 2
    beta := 3
    gamma := 5
    b := 1
    s := 1/10
    d := 1/10
    R := 10
    step := 1/5
    origin := 0
    nodes := 3
    iters := 2
    accurancy := 4
    kernels := Kernels.normal 1 1
    path := none }

/-- The method-name scratch variable of the DEBUG-only `showArgs`
(`main.cpp` lines 121-128): `const char *methodName` is assigned by the
three-way `if`/`else if` chain and by nothing else; `none` models the
pointer being left uninitialized before it is passed to `printf`. -/
def showArgsMethodName (m : Int) : Option String :=
  if m = Problem.nonlinear_neuman then some "neuman nonlinear"
  else if m = Problem.linear_neuman then some "neuman linear"
  else if m = Problem.nystrom then some "nystrom"
  else none

/-- The five kernel classes `showArgs` tries `dynamic_cast` against
(`main.cpp` lines 61-65), in declaration order. -/
inductive KernelClass where
  | NormalK
  | KurticK
  | ExponentK
  | RoughgardenK
  | ExponentPolynomialK
deriving DecidableEq

/-- Modelled from the spec: success of `dynamic_cast` from the dynamic
kernel type to one of the five tested classes.  The class hierarchy of
`kernels.hpp` is not under `src/`; the Kurtic branch of `showArgs` prints
four parameters (`getS0m`, `getS1m`, `getS0w`, `getS1w`), so
`KurticKernels` itself carries the four general parameters and the
general-kurtic variant is modelled as a `KurticKernels`; the remaining
variants are unrelated classes, and the constant (top-hat) kernels match
none of the five. -/
def castsTo : Kernels → KernelClass → Bool
  | Kernels.normal _ _, KernelClass.NormalK => true
  | Kernels.kurtic _ _, KernelClass.KurticK => true
  | Kernels.generalKurtic _ _ _ _, KernelClass.KurticK => true
  | Kernels.exponent _ _, KernelClass.ExponentK => true
  | Kernels.roughgarden _ _ _ _, KernelClass.RoughgardenK => true
  | Kernels.exponentPolynomial _ _ _ _, KernelClass.ExponentPolynomialK => true
  | _, _ => false

/-- The `dynamic_cast` chain of `showArgs` (`main.cpp` lines 68-117): the
first of the five classes, tried in order, that the kernel object casts
to — `none` when every cast fails, in which case no kernel-parameter line
is printed at all. -/
def showArgsKernelClass (ks : Kernels) : Option KernelClass :=
  if castsTo ks KernelClass.NormalK then some KernelClass.NormalK
  else if castsTo ks KernelClass.KurticK then some KernelClass.KurticK
  else if castsTo ks KernelClass.ExponentK then some KernelClass.ExponentK
  else if castsTo ks KernelClass.RoughgardenK then some KernelClass.RoughgardenK
  else if castsTo ks KernelClass.ExponentPolynomialK then
    some KernelClass.ExponentPolynomialK
  else none

/-- Everything the DEBUG-only `showArgs` prints (`main.cpp` lines 59-154):
which kernel-parameter branch fired (if any), the method name (if the
scratch pointer was assigned), the unconditional block of Problem fields
`R, nodes, iters, b, s, d, alpha, beta, gamma, accurancy, step, dimension`,
and the optional path line. -/
structure ShowArgsOutput where
  kernelClass : Option KernelClass
  methodName : Option String
  fields : ℚ × Nat × Nat × ℚ × ℚ × ℚ × ℚ × ℚ × ℚ × Nat × ℚ × Int
  pathLine : Option String

/-- The DEBUG-only `showArgs` routine of `main.cpp` (lines 59-154) as a
function from the `Problem` to its printed output. -/
def showArgs (p : Problem) : ShowArgsOutput :=
  { kernelClass := showArgsKernelClass p.kernels
    methodName := showArgsMethodName p.method
    fields := (p.R, p.nodes, p.iters, p.b, p.s, p.d, p.alpha, p.beta,
      p.gamma, p.accurancy, p.step, p.dimension)
    pathLine := p.path }

/-- C1: for every successfully initialized `Problem`, `main` selects
`LinearSolver` for method `linear_neuman` and `NystromSolver` for method
`nystrom` when the dimension is 1 or 3, `SolverFFT` for any other method
in those dimensions, and `SolverDHTNaive` for every other dimensionality
regardless of the requested method. -/
theorem spec_C1 (p : Problem) :
    ((p.dimension = 1 ∨ p.dimension = 3) → p.method = Problem.linear_neuman →
      chooseSolver p = SolverKind.LinearSolver) ∧
    ((p.dimension = 1 ∨ p.dimension = 3) → p.method = Problem.nystrom →
      chooseSolver p = SolverKind.NystromSolver) ∧
    ((p.dimension = 1 ∨ p.dimension = 3) → p.method ≠ Problem.linear_neuman →
      p.method ≠ Problem.nystrom → chooseSolver p = SolverKind.SolverFFT) ∧
    (¬(p.dimension = 1 ∨ p.dimension = 3) →
      chooseSolver p = SolverKind.SolverDHTNaive) := by
  refine ⟨?_, ?_, ?_, ?_⟩
  · intro hd hm
    simp [chooseSolver, hd, hm]
  · intro hd hm
    simp [chooseSolver, hd, hm, Problem.nystrom, Problem.linear_neuman]
  · intro hd h1 h2
    simp [chooseSolver, hd, h1, h2]
  · intro hd
    simp [chooseSolver, hd]

/-- Witness for C1 at concrete problems covering all four dispatch cases. -/
theorem spec_C1_witness :
    chooseSolver sampleProblem = SolverKind.LinearSolver ∧
    chooseSolver { sampleProblem with method := Problem.nystrom } =
      SolverKind.NystromSolver ∧
    chooseSolver { sampleProblem with method := Problem.nonlinear_neuman } =
      SolverKind.SolverFFT ∧
    chooseSolver { sampleProblem with dimension := 2 } =
      SolverKind.SolverDHTNaive :=
  ⟨(spec_C1 sampleProblem).1 (Or.inl rfl) rfl,
   (spec_C1 { sampleProblem with method := Problem.nystrom }).2.1
     (Or.inl rfl) rfl,
   (spec_C1 { sampleProblem with method := Problem.nonlinear_neuman }).2.2.1
     (Or.inl rfl) (by decide) (by decide),
   (spec_C1 { sampleProblem with dimension := 2 }).2.2.2 (by decide)⟩

/-- C2: when `Problem::init` returns the help status, `main` prints the
reference message and exits with status 0; when it returns any status
other than success or help, `main` prints the "run with -h" guidance and
exits with status 1 — in both cases no solver is constructed or run. -/
theorem spec_C2 (st : Int) (p : Problem) :
    (st = Problem.help → runMain st p = ([Event.printReference], 0)) ∧
    (st ≠ Problem.success → st ≠ Problem.help →
      runMain st p = ([Event.printHintRunWithH], 1)) := by
  constructor
  · intro h
    subst h
    norm_num [runMain, Problem.help, Problem.success]
  · intro h1 h2
    simp [runMain, h1, h2]

/-- Witness for C2 at a help invocation and a parse-error invocation. -/
theorem spec_C2_witness :
    runMain Problem.help sampleProblem = ([Event.printReference], 0) ∧
    runMain Problem.parse_error sampleProblem =
      ([Event.printHintRunWithH], 1) :=
  ⟨(spec_C2 Problem.help sampleProblem).1 rfl,
   (spec_C2 Problem.parse_error sampleProblem).2 (by decide) (by decide)⟩

/-- C3: on a successful init, `main` runs exactly one solve, prints the
two moment values, and exits with status 0 unconditionally — the trace and
exit status never depend on whether the iteration ceiling was reached. -/
theorem spec_C3 (p : Problem) :
    (runMain Problem.success p).2 = 0 ∧
    ((runMain Problem.success p).1.filter Event.isSolveRun) =
      [Event.solveRun (chooseSolver p)] ∧
    Event.printMomentN (solve (chooseSolver p) p).N p.accurancy ∈
      (runMain Problem.success p).1 ∧
    Event.printC0 ((solve (chooseSolver p) p).getC0) p.accurancy ∈
      (runMain Problem.success p).1 := by
  cases hp : p.path <;>
    simp [runMain, hp, Event.isSolveRun, List.filter]

/-- C4: the `storeVector` calls in a successful run are exactly one call
with the computed `C`, the configured path, the node count, the grid step,
the origin and the accuracy when a path is configured, and none at all
when no path is configured. -/
theorem spec_C4 (p : Problem) :
    ((runMain Problem.success p).1.filter Event.isStore) =
      (p.path.map (fun pa =>
        Event.storeVector (solve (chooseSolver p) p).C pa p.nodes p.step
          p.origin p.accurancy)).toList := by
  cases hp : p.path <;>
    simp [runMain, hp, Event.isStore, List.filter]

/-- C5: the moment printouts of a successful run are exactly the first
moment `N` and the derived `C(0)`, each printed with `printf` precision
equal to the `Problem`'s accuracy value. -/
theorem spec_C5 (p : Problem) :
    ((runMain Problem.success p).1.filter Event.isMomentPrint) =
      [Event.printMomentN (solve (chooseSolver p) p).N p.accurancy,
       Event.printC0 ((solve (chooseSolver p) p).getC0) p.accurancy] := by
  cases hp : p.path <;>
    simp [runMain, hp, Event.isMomentPrint, List.filter]

/-- C6: solver selection is a pure function of the pair
(dimensionality, requested method) alone, and re-running the selected
solver on an identical `Problem` yields an identical `Result`. -/
theorem spec_C6 (p q : Problem) :
    (p.dimension = q.dimension → p.method = q.method →
      chooseSolver p = chooseSolver q) ∧
    (p = q → solve (chooseSolver p) p = solve (chooseSolver q) q) := by
  constructor
  · intro hd hm
    simp [chooseSolver, hd, hm]
  · intro h
    rw [h]

/-- Witness for C6: two problems agreeing on dimension and method but
differing in alpha select the same solver, and a re-run reproduces the
`Result`. -/
theorem spec_C6_witness :
    chooseSolver sampleProblem =
      chooseSolver { sampleProblem with alpha := 7 } ∧
    solve (chooseSolver sampleProblem) sampleProblem =
      solve (chooseSolver sampleProblem) sampleProblem :=
  ⟨(spec_C6 sampleProblem { sampleProblem with alpha := 7 }).1 rfl rfl,
   (spec_C6 sampleProblem sampleProblem).2 rfl⟩

/-- C7: when a LINEAR method (`linear_neuman` or `nystrom`) is used (the
1D/3D case, where those methods select their solver), the closure weights
entering the solve are forced to alpha = 1, beta = 0, gamma = 0 regardless
of the stored values; for every other solver the `Problem`'s stored
weights are used. -/
theorem spec_C7 (p : Problem) :
    ((p.dimension = 1 ∨ p.dimension = 3) →
      (p.method = Problem.linear_neuman ∨ p.method = Problem.nystrom) →
      solverWeights (chooseSolver p) p = (1, 0, 0)) ∧
    (chooseSolver p ≠ SolverKind.LinearSolver →
      chooseSolver p ≠ SolverKind.NystromSolver →
      solverWeights (chooseSolver p) p = (p.alpha, p.beta, p.gamma)) := by
  constructor
  · intro hd hm
    rcases hm with hm | hm <;>
      simp [chooseSolver, solverWeights, hd, hm, Problem.linear_neuman,
        Problem.nystrom]
  · intro h1 h2
    rcases hk : chooseSolver p with _ | _ | _ | _
    · exact absurd hk h1
    · exact absurd hk h2
    · simp [solverWeights]
    · simp [solverWeights]

/-- Witness for C7: the linear method of `sampleProblem` forces (1,0,0),
while the 2-dimensional variant keeps its stored weights. -/
theorem spec_C7_witness :
    solverWeights (chooseSolver sampleProblem) sampleProblem = (1, 0, 0) ∧
    solverWeights (chooseSolver { sampleProblem with dimension := 2 })
        { sampleProblem with dimension := 2 } =
      (({ sampleProblem with dimension := 2 } : Problem).alpha,
       ({ sampleProblem with dimension := 2 } : Problem).beta,
       ({ sampleProblem with dimension := 2 } : Problem).gamma) :=
  ⟨(spec_C7 sampleProblem).1 (Or.inl rfl) (Or.inl rfl),
   (spec_C7 { sampleProblem with dimension := 2 }).2 (by decide) (by decide)⟩

/-- C8: every concrete solver's closure term is the single shared
`T(x,y) = 1/(alpha+beta) (alpha C(x)C(y)/N + beta C(x)C(y-x)/N +
gamma C(y)C(y-x)/N - beta N^3)` instantiated at that solver's effective
weights — the solvers differ only in their discretization strategy, not in
the equation. -/
theorem spec_C8 (k : SolverKind) (p : Problem) (N Cx Cy Cyx : ℚ) :
    solverClosure k p N Cx Cy Cyx =
      1 / ((solverWeights k p).1 + (solverWeights k p).2.1) *
        ((solverWeights k p).1 * Cx * Cy / N +
         (solverWeights k p).2.1 * Cx * Cyx / N +
         (solverWeights k p).2.2 * Cy * Cyx / N -
         (solverWeights k p).2.1 * N ^ 3) := by
  cases k <;> simp [solverClosure, solverWeights, closureT] <;> ring

/-- C9: in `showArgs`, the scratch pointer `methodName` is assigned
exactly when the method is `nonlinear_neuman`, `linear_neuman` or
`nystrom`; any other method value reaches the `printf` with the pointer
uninitialized. -/
theorem spec_C9 (m : Int) :
    (showArgsMethodName m).isSome ↔
      (m = Problem.nonlinear_neuman ∨ m = Problem.linear_neuman ∨
        m = Problem.nystrom) := by
  by_cases h1 : m = Problem.nonlinear_neuman
  · simp [showArgsMethodName, h1]
  · by_cases h2 : m = Problem.linear_neuman
    · simp [showArgsMethodName, h1, h2, Problem.nonlinear_neuman,
        Problem.linear_neuman]
    · by_cases h3 : m = Problem.nystrom
      · simp [showArgsMethodName, h1, h2, h3, Problem.nonlinear_neuman,
          Problem.linear_neuman, Problem.nystrom]
      · simp [showArgsMethodName, h1, h2, h3]

/-- C10: `showArgs` prints kernel parameters for exactly the first of the
five classes Normal, Kurtic, Exponent, Roughgarden, ExponentPolynomial
(tried in that order) that the kernel casts to; the constant (top-hat)
kernels match none of the five, produce no kernel-parameter output, and
the routine still prints the full block of remaining `Problem` fields. -/
theorem spec_C10 (p : Problem) (rb rd : ℚ) :
    (∀ ks : Kernels, showArgsKernelClass ks =
      [KernelClass.NormalK, KernelClass.KurticK, KernelClass.ExponentK,
        KernelClass.RoughgardenK, KernelClass.ExponentPolynomialK].find?
          (fun c => castsTo ks c)) ∧
    (showArgs { p with kernels := Kernels.constant rb rd }).kernelClass =
      none ∧
    (showArgs { p with kernels := Kernels.constant rb rd }).fields =
      (p.R, p.nodes, p.iters, p.b, p.s, p.d, p.alpha, p.beta, p.gamma,
        p.accurancy, p.step, p.dimension) := by
  refine ⟨?_, rfl, rfl⟩
  intro ks
  cases ks <;> rfl
